import Mathlib

/-!
# Verification of the WasteImageClassification response pipeline

Shallow embedding of `src/WC.py`: the response parser
(`WasteClassifier.clean_response`), the classification entry point
(`WasteClassifier.classify_image`), the prompt construction, the
constructor/startup behaviour, and the base64 image encoding
(`WasteClassifier.encode_image`), together with theorems settling the
specification claims about them.
-/

namespace WC

/-! ## Python string primitives

Embeddings of the Python `str` operations used by `WC.py`:
`str.split('\n')`, `str.strip()`, `str.lstrip('0123456789. ')`. -/

/-- Python `str.isspace` character class (the whitespace set used by
`str.strip()` with no argument). -/
def pyIsSpace (c : Char) : Bool :=
  c = ' ' || c = '\t' || c = '\n' || c = '\u000B' || c = '\u000C' || c = '\r' ||
  c = '\u001C' || c = '\u001D' || c = '\u001E' || c = '\u001F' ||
  c = '\u0085' || c = '\u00A0' || c = '\u1680' ||
  ('\u2000' ≤ c && c ≤ '\u200A') ||
  c = '\u2028' || c = '\u2029' || c = '\u202F' || c = '\u205F' || c = '\u3000'

/-- Membership in the character set `'0123456789. '` passed to `lstrip`
in `clean_response`. -/
def isNumberingChar (c : Char) : Bool :=
  c.isDigit || c = '.' || c = ' '

/-- Python `s.split('\n')` on the character list: split on every `'\n'`,
keeping empty fields; the result is never empty (`"".split('\n') = [""]`). -/
def splitOnNl : List Char → List (List Char)
  | [] => [[]]
  | c :: rest =>
      if c = '\n' then [] :: splitOnNl rest
      else
        match splitOnNl rest with
        | [] => [[c]]
        | l :: ls => (c :: l) :: ls

/-- Python `response.split('\n')` on strings. -/
def pySplit (s : String) : List String :=
  (splitOnNl s.data).map String.mk

/-- Python `s.strip()`: drop leading and trailing `str.isspace` characters. -/
def pyStrip (s : String) : String :=
  ⟨((s.data.dropWhile pyIsSpace).reverse.dropWhile pyIsSpace).reverse⟩

/-- One entry of the list comprehension in `clean_response`:
`line.strip().lstrip('0123456789. ')`. -/
def cleanLine (line : String) : String :=
  ⟨(pyStrip line).data.dropWhile isNumberingChar⟩

/-! ## The classifier's data and parser -/

/-- `WasteClassifier.VALID_CATEGORIES`: the controlled vocabulary of
waste-category labels. -/
def VALID_CATEGORIES : List String :=
  ["Recycling", "Organic", "Trash", "Electronics", "Miscellaneous",
   "Plastic", "Metal", "Glass", "Paper", "Textiles", "Batteries",
   "Hazardous Waste", "Food Waste", "Bulky Waste", "E-waste", "Toxic Waste"]

/-- `WasteClassifier.clean_response`: split the raw response on newlines,
clean each line, and return the first two lines if there are at least two
lines, else the fallback pair. -/
def clean_response (response : String) : String × String :=
  let cleaned_lines := (pySplit response).map cleanLine
  if 2 ≤ cleaned_lines.length then
    (cleaned_lines.getD 0 "", cleaned_lines.getD 1 "")
  else
    ("Miscellaneous", "General waste disposal recommended")

/-! ## Structural lemmas about the parser -/

theorem splitOnNl_ne_nil : ∀ l : List Char, splitOnNl l ≠ []
  | [] => by simp [splitOnNl]
  | c :: rest => by
      simp only [splitOnNl]
      split
      · simp
      · split <;> simp

theorem two_le_splitOnNl_length_iff (l : List Char) :
    2 ≤ (splitOnNl l).length ↔ '\n' ∈ l := by
  induction l with
  | nil => simp [splitOnNl]
  | cons c rest ih =>
      by_cases h : c = '\n'
      · subst h
        have e : splitOnNl ('\n' :: rest) = [] :: splitOnNl rest := by
          simp [splitOnNl]
        have hp := List.length_pos.mpr (splitOnNl_ne_nil rest)
        rw [e]
        simp only [List.length_cons, List.mem_cons]
        constructor
        · intro _; simp
        · intro _; omega
      · simp only [splitOnNl, if_neg h]
        cases hs : splitOnNl rest with
        | nil => exact absurd hs (splitOnNl_ne_nil rest)
        | cons a as =>
            rw [hs] at ih
            simp only [List.length_cons] at ih ⊢
            rw [List.mem_cons]
            constructor
            · intro hlen; exact Or.inr (ih.mp hlen)
            · rintro (hc | hm)
              · exact absurd hc.symm h
              · exact ih.mpr hm

theorem two_le_pySplit_iff (s : String) :
    2 ≤ (pySplit s).length ↔ '\n' ∈ s.data := by
  simp [pySplit, two_le_splitOnNl_length_iff]

theorem exists_cons_cons {α : Type} :
    ∀ l : List α, 2 ≤ l.length → ∃ a b t, l = a :: b :: t
  | [], h => by simp at h
  | [a], h => by simp at h
  | a :: b :: t, _ => ⟨a, b, t, rfl⟩

theorem clean_response_of_two_le (raw : String) (h : 2 ≤ (pySplit raw).length) :
    clean_response raw =
      (cleanLine ((pySplit raw).getD 0 ""), cleanLine ((pySplit raw).getD 1 "")) := by
  obtain ⟨a, b, t, hab⟩ := exists_cons_cons (pySplit raw) h
  simp only [clean_response, hab, List.map_cons, List.length_cons, List.getD_cons_zero,
    List.getD_cons_succ, if_pos (Nat.le_add_left 2 _)]

theorem clean_response_of_short (raw : String) (h : (pySplit raw).length < 2) :
    clean_response raw = ("Miscellaneous", "General waste disposal recommended") := by
  have hn : ¬ 2 ≤ ((pySplit raw).map cleanLine).length := by
    simp only [List.length_map]; omega
  simp only [clean_response, if_neg hn]

/-- Any suffix produced by dropping trailing characters: a list is its
right-trimmed core followed by the trimmed-off tail. -/
theorem rdrop_append (p : Char → Bool) (l : List Char) :
    ∃ t, l = (l.reverse.dropWhile p).reverse ++ t := by
  refine ⟨(l.reverse.takeWhile p).reverse, ?_⟩
  have h2 := congrArg List.reverse (List.takeWhile_append_dropWhile (p := p) (l := l.reverse))
  simp only [List.reverse_append, List.reverse_reverse] at h2
  exact h2.symm

/-- The cleaned line is a contiguous fragment of the original line. -/
theorem cleanLine_infix (s : String) :
    ∃ pre suf : List Char, pre ++ (cleanLine s).data ++ suf = s.data := by
  obtain ⟨t1, h1⟩ : ∃ t, s.data = t ++ s.data.dropWhile pyIsSpace :=
    ⟨_, (List.takeWhile_append_dropWhile (p := pyIsSpace) (l := s.data)).symm⟩
  obtain ⟨t2, h2⟩ := rdrop_append pyIsSpace (s.data.dropWhile pyIsSpace)
  obtain ⟨t3, h3⟩ : ∃ t, (pyStrip s).data = t ++ (cleanLine s).data :=
    ⟨_, (List.takeWhile_append_dropWhile (p := isNumberingChar) (l := (pyStrip s).data)).symm⟩
  have hps : (pyStrip s).data =
      ((s.data.dropWhile pyIsSpace).reverse.dropWhile pyIsSpace).reverse := rfl
  refine ⟨t1 ++ t3, t2, ?_⟩
  conv_rhs => rw [h1, h2, ← hps, h3]
  simp [List.append_assoc]

/-- After `dropWhile p`, the head (if any) does not satisfy `p`. -/
theorem head_dropWhile_not (p : Char → Bool) :
    ∀ (l : List Char) (c : Char), (l.dropWhile p).head? = some c → p c = false
  | [], c => by simp [List.dropWhile]
  | a :: l, c => by
      simp only [List.dropWhile]
      by_cases h : p a
      · simpa [h] using head_dropWhile_not p l c
      · simp only [h, Bool.false_eq_true, if_false, List.head?_cons, Option.some_inj]
        rintro rfl
        exact Bool.eq_false_iff.mpr h

/-! ## Claim theorems: the response parser -/

/-- C1 counterexample: `"E-waste\n\n"` has fewer than 2 non-trivial (non-empty)
lines after per-line cleaning, yet `clean_response` does not return the
fallback pair: it returns `("E-waste", "")`, because blank lines still count
toward the `len(cleaned_lines) >= 2` check. -/
theorem clean_response_nontrivial_fallback_counterexample :
    (((pySplit "E-waste\n\n").map cleanLine).filter (fun s => s ≠ "")).length < 2 ∧
      clean_response "E-waste\n\n" ≠
        ("Miscellaneous", "General waste disposal recommended") ∧
      clean_response "E-waste\n\n" = ("E-waste", "") := by
  decide

/-- C1 (amended): the `>= 2` check counts every line of the split, blank ones
included, so even when fewer than 2 cleaned lines are non-empty the fallback
branch is not taken as long as the raw text contains a newline; the result is
the first two lines after cleaning (possibly empty strings). -/
theorem clean_response_counts_blank_lines (raw : String)
    (_hfew : (((pySplit raw).map cleanLine).filter (fun s => s ≠ "")).length < 2)
    (hnl : '\n' ∈ raw.data) :
    clean_response raw =
      (cleanLine ((pySplit raw).getD 0 ""), cleanLine ((pySplit raw).getD 1 "")) :=
  clean_response_of_two_le raw ((two_le_pySplit_iff raw).mpr hnl)

theorem clean_response_counts_blank_lines_witness :
    ((((pySplit "E-waste\n\n").map cleanLine).filter (fun s => s ≠ "")).length < 2 ∧
        '\n' ∈ ("E-waste\n\n" : String).data) ∧
      clean_response "E-waste\n\n" = ("E-waste", "") := by
  refine ⟨⟨by decide, by decide⟩, ?_⟩
  rw [clean_response_counts_blank_lines "E-waste\n\n" (by decide) (by decide)]
  decide

/-- C2 counterexample: `"\nOrganic\nCompost at municipal facility."` contains
at least 2 non-empty lines, but `clean_response` does not return those two
non-empty lines: it returns the first two lines of the split, i.e.
`("", "Organic")`. -/
theorem clean_response_nonempty_selection_counterexample :
    2 ≤ ((pySplit "\nOrganic\nCompost at municipal facility.").filter
        (fun s => s ≠ "")).length ∧
      clean_response "\nOrganic\nCompost at municipal facility." ≠
        ("Organic", "Compost at municipal facility.") ∧
      clean_response "\nOrganic\nCompost at municipal facility." =
        ("", "Organic") := by
  decide

/-- C2 (amended): for raw text with at least 2 non-empty lines,
`clean_response` returns the first two lines of the newline split (not
necessarily the non-empty ones), each cleaned; when no blank line precedes
them these coincide with the first two non-empty lines, as in
`"Organic\nCompost at municipal facility."`. -/
theorem clean_response_first_two_raw_lines (raw : String)
    (h : 2 ≤ ((pySplit raw).filter (fun s => s ≠ "")).length) :
    clean_response raw =
      (cleanLine ((pySplit raw).getD 0 ""), cleanLine ((pySplit raw).getD 1 "")) :=
  clean_response_of_two_le raw (le_trans h (List.length_filter_le _ _))

theorem clean_response_first_two_raw_lines_witness :
    2 ≤ ((pySplit "Organic\nCompost at municipal facility.").filter
        (fun s => s ≠ "")).length ∧
      clean_response "Organic\nCompost at municipal facility." =
        ("Organic", "Compost at municipal facility.") := by
  refine ⟨by decide, ?_⟩
  rw [clean_response_first_two_raw_lines "Organic\nCompost at municipal facility."
    (by decide)]
  decide

/-- C3: any raw text containing no newline character — the empty string and
every single-line input included — splits into a single line, so
`clean_response` returns the fallback pair. -/
theorem clean_response_no_newline_fallback (raw : String) (h : '\n' ∉ raw.data) :
    clean_response raw = ("Miscellaneous", "General waste disposal recommended") := by
  apply clean_response_of_short
  have h2 : ¬ 2 ≤ (pySplit raw).length := fun hle => h ((two_le_pySplit_iff raw).mp hle)
  omega

theorem clean_response_no_newline_fallback_witness :
    ('\n' ∉ ("" : String).data ∧
        clean_response "" = ("Miscellaneous", "General waste disposal recommended")) ∧
      ('\n' ∉ ("Plastic" : String).data ∧
        clean_response "Plastic" =
          ("Miscellaneous", "General waste disposal recommended")) :=
  ⟨⟨by decide, clean_response_no_newline_fallback "" (by decide)⟩,
   ⟨by decide, clean_response_no_newline_fallback "Plastic" (by decide)⟩⟩

/-- C4: per-line cleaning strips surrounding whitespace first and then a
leading run of digits, dots and spaces: accidental numbering disappears
(`"1. Plastic\n2. Recycle bin"` parses to `("Plastic", "Recycle bin")`), each
cleaned line is a contiguous fragment of its original line, and a non-empty
cleaned line never starts with a digit, a dot or a space. -/
theorem clean_response_numbering_strip :
    clean_response "1. Plastic\n2. Recycle bin" = ("Plastic", "Recycle bin") ∧
      (∀ s : String, cleanLine s = ⟨(pyStrip s).data.dropWhile isNumberingChar⟩) ∧
      (∀ s : String, ∃ pre suf : List Char, pre ++ (cleanLine s).data ++ suf = s.data) ∧
      (∀ (s : String) (c : Char),
        (cleanLine s).data.head? = some c → isNumberingChar c = false) := by
  refine ⟨by decide, fun s => rfl, cleanLine_infix, fun s c hc => ?_⟩
  exact head_dropWhile_not isNumberingChar (pyStrip s).data c hc

theorem clean_response_numbering_strip_witness :
    (cleanLine "1. Plastic").data.head? = some 'P' ∧ isNumberingChar 'P' = false :=
  ⟨by decide, clean_response_numbering_strip.2.2.2 "1. Plastic" 'P' (by decide)⟩

/-- C5: `clean_response` performs no membership check against
`VALID_CATEGORIES`: a first line outside the controlled vocabulary is
returned verbatim as the category. -/
theorem clean_response_no_vocabulary_check :
    clean_response "Banana\nFeed to compost worms" =
        ("Banana", "Feed to compost worms") ∧
      "Banana" ∉ VALID_CATEGORIES := by
  decide

/-! ## classify_image -/

/-- Outcome of one `classify_image` call: the returned pair, the `st.error`
messages shown to the user, and whether the remote client was invoked. -/
structure ClassifyOutcome where
  result : String × String
  errors : List String
  remoteCalled : Bool
deriving DecidableEq

/-- `WasteClassifier.classify_image`: the remote chat-completion call is
abstracted as a function producing either the stripped-down message content
(`response.choices[0].message.content`) or the exception it raises; an empty
image short-circuits, a successful reply is stripped and parsed, and any
exception is caught and mapped to the fallback pair plus an error notice. -/
def classify_image (base64_image : String)
    (remote : Unit → Except String String) : ClassifyOutcome :=
  if base64_image = "" then
    { result := ("Miscellaneous", "General waste disposal recommended"),
      errors := ["Empty image input"],
      remoteCalled := false }
  else
    match remote () with
    | Except.ok content =>
        { result := clean_response (pyStrip content),
          errors := [],
          remoteCalled := true }
    | Except.error e =>
        { result := ("Miscellaneous", "General waste disposal recommended"),
          errors := ["Classification error: " ++ e],
          remoteCalled := true }

/-- C6: every exception raised by the remote call is caught inside
`classify_image`, which returns the fallback pair together with a
user-visible `st.error` notice instead of propagating it; the parser
`clean_response` itself is a total function on strings, so it never raises. -/
theorem classify_image_catches_exception (img e : String) (h : img ≠ "") :
    classify_image img (fun _ => Except.error e) =
      { result := ("Miscellaneous", "General waste disposal recommended"),
        errors := ["Classification error: " ++ e],
        remoteCalled := true } := by
  simp [classify_image, h]

theorem classify_image_catches_exception_witness :
    ("abc" : String) ≠ "" ∧
      classify_image "abc" (fun _ => Except.error "rate limited") =
        { result := ("Miscellaneous", "General waste disposal recommended"),
          errors := ["Classification error: " ++ "rate limited"],
          remoteCalled := true } :=
  ⟨by decide, classify_image_catches_exception "abc" "rate limited" (by decide)⟩

/-- C10: an empty (falsy) `base64_image` makes `classify_image` return the
fallback pair immediately, with an `st.error` notice and without ever
invoking the remote inference client, whatever that client would return. -/
theorem classify_image_empty_input (remote : Unit → Except String String) :
    classify_image "" remote =
      { result := ("Miscellaneous", "General waste disposal recommended"),
        errors := ["Empty image input"],
        remoteCalled := false } := by
  simp [classify_image]

/-! ## The prompt -/

/-- The 28-space indentation of the prompt's f-string body. -/
def promptIndent : String := "                            "

/-- The prompt text before `', '.join(self.VALID_CATEGORIES)`. -/
def promptPrefix : String :=
  "\n" ++ promptIndent ++
    "EXPERT WASTE CLASSIFICATION TASK: Analyze the image and follow these STRICT guidelines:\n" ++
  promptIndent ++ "CLASSIFICATION REQUIREMENTS:\n" ++
  promptIndent ++ "- SELECT EXACTLY ONE waste category from this PRECISE list: "

/-- The prompt text after the joined category list. -/
def promptSuffix : String :=
  "\n" ++
  promptIndent ++ "- Base classification on VISUAL CHARACTERISTICS and MATERIAL COMPOSITION\n" ++
  promptIndent ++ "- MOST SPECIFIC category takes precedence\n" ++
  promptIndent ++ "- IGNORE context, focus SOLELY on the object's inherent waste type\n" ++
  "\n" ++
  promptIndent ++ "RESPONSE FORMAT (MANDATORY):\n" ++
  promptIndent ++ "- FIRST LINE: Waste Category (ONE WORD)\n" ++
  promptIndent ++ "- SECOND LINE: Concise, actionable disposal recommendation\n" ++
  promptIndent ++ "- NO additional text, numbering, or explanatory content\n" ++
  promptIndent ++ "- USE clear, professional language\n" ++
  promptIndent ++ "- PRIORITIZE local, environmentally responsible disposal methods\n" ++
  "\n" ++
  promptIndent ++ "CRITICAL CONSTRAINTS:\n" ++
  promptIndent ++ "- Maximum 10 words for category\n" ++
  promptIndent ++ "- Maximum 40 words for disposal advice\n" ++
  promptIndent ++ "- ZERO speculation or unnecessary details\n" ++
  promptIndent

/-- `', '.join(self.VALID_CATEGORIES)`. -/
def categoriesJoined : String := String.intercalate ", " VALID_CATEGORIES

/-- The `text` block of the chat request built in `classify_image`. -/
def promptText : String := promptPrefix ++ categoriesJoined ++ promptSuffix

/-- `pat` occurs as a leading block of `l`. -/
def startsWithChars : List Char → List Char → Bool
  | [], _ => true
  | _ :: _, [] => false
  | p :: ps, c :: cs => p = c && startsWithChars ps cs

/-- Number of positions of `l` at which `pat` occurs as a substring. -/
def countOccs (pat : List Char) : List Char → Nat
  | [] => 0
  | c :: rest => (if startsWithChars pat (c :: rest) then 1 else 0) + countOccs pat rest

set_option maxRecDepth 100000 in
/-- C7: the prompt embeds the comma-joined controlled vocabulary verbatim
(the prompt is exactly that enumeration surrounded by fixed text), the
vocabulary has 16 entries, and each entry occurs exactly once in the
enumeration — once as a list element and once as a substring of the joined
enumeration text. -/
theorem prompt_enumerates_categories_once :
    promptText = promptPrefix ++ categoriesJoined ++ promptSuffix ∧
      VALID_CATEGORIES.length = 16 ∧
      (∀ c ∈ VALID_CATEGORIES, VALID_CATEGORIES.count c = 1) ∧
      (∀ c ∈ VALID_CATEGORIES, countOccs c.data categoriesJoined.data = 1) :=
  ⟨rfl, by decide, by decide, by decide⟩

theorem prompt_enumerates_categories_once_witness :
    ("Recycling" : String) ∈ VALID_CATEGORIES ∧
      VALID_CATEGORIES.count "Recycling" = 1 ∧
      countOccs ("Recycling" : String).data categoriesJoined.data = 1 :=
  ⟨by decide, prompt_enumerates_categories_once.2.2.1 "Recycling" (by decide),
    prompt_enumerates_categories_once.2.2.2 "Recycling" (by decide)⟩

/-! ## Startup: constructor and main -/

/-- User-visible actions of `main`, in execution order. -/
inductive UIEvent where
  | pageConfig (title icon : String)
  | pageTitle (s : String)
  | errorMsg (s : String)
  | stopApp
  | buttonShown (label : String)
  | webcamOpen
  | frameShown
  | classifyRun
  | warningMsg (s : String)
deriving DecidableEq

/-- Python truthiness of an optional string (`None` and `""` are falsy). -/
def pyTruthy : Option String → Bool
  | none => false
  | some s => !(s == "")

/-- Python `a or b` on optional strings. -/
def pyOr (a b : Option String) : Option String :=
  if pyTruthy a then a else b

/-- `WasteClassifier.__init__`: resolve the key from the constructor argument
or the `GROQ_API_KEY` environment variable; with no usable key, report an
`st.error` and raise `ValueError` before any client is created; otherwise
create the Groq client holding the key. Returns the client (modelled by the
key it holds) or the raised error, with the emitted UI events. -/
def wcInit (api_key envKey : Option String) : Except String String × List UIEvent :=
  let key := pyOr api_key envKey
  if pyTruthy key then (Except.ok (key.getD ""), [])
  else
    (Except.error "No API key provided",
      [UIEvent.errorMsg "No Groq API key found. Please set GROQ_API_KEY in .env file."])

/-- `main`: page setup, classifier construction — stopping the script via
`st.stop()` when `ValueError` is raised — then the webcam UI: open the
camera, bail out if it cannot be opened, otherwise show the frame, the two
buttons, and react to the classify/stop clicks. -/
def mainEvents (envKey : Option String)
    (webcamOk frameOk classifyClicked stopClicked : Bool) : List UIEvent :=
  [UIEvent.pageConfig "Waste Classifier" ":recycle:",
   UIEvent.pageTitle "🌍 Real-Time Waste Classification"] ++
  match wcInit none envKey with
  | (Except.error _, evs) => evs ++ [UIEvent.stopApp]
  | (Except.ok _, evs) =>
      evs ++ [UIEvent.webcamOpen] ++
      if !webcamOk then [UIEvent.errorMsg "Unable to access webcam"]
      else
        [UIEvent.buttonShown "Classify Current Frame",
         UIEvent.buttonShown "Stop Webcam"] ++
        (if frameOk then [UIEvent.frameShown] else []) ++
        (if classifyClicked && frameOk then [UIEvent.classifyRun] else []) ++
        (if stopClicked then [UIEvent.warningMsg "Webcam feed stopped"] else [])

/-- C8: with no API key argument and no usable `GROQ_API_KEY` in the
environment, construction raises `ValueError` right after showing the error
to the user, `main` stops there — the trace ends at `st.stop()` and contains
no button, webcam or classification event — and no client is created. -/
theorem missing_api_key_halts (envKey : Option String)
    (h : pyTruthy envKey = false)
    (webcamOk frameOk classifyClicked stopClicked : Bool) :
    (wcInit none envKey).1 = Except.error "No API key provided" ∧
      mainEvents envKey webcamOk frameOk classifyClicked stopClicked =
        [UIEvent.pageConfig "Waste Classifier" ":recycle:",
         UIEvent.pageTitle "🌍 Real-Time Waste Classification",
         UIEvent.errorMsg "No Groq API key found. Please set GROQ_API_KEY in .env file.",
         UIEvent.stopApp] ∧
      ∀ e ∈ mainEvents envKey webcamOk frameOk classifyClicked stopClicked,
        (∀ lab, e ≠ UIEvent.buttonShown lab) ∧ e ≠ UIEvent.webcamOpen ∧
          e ≠ UIEvent.classifyRun := by
  have hnone : pyTruthy none = false := rfl
  have hinit : wcInit none envKey =
      (Except.error "No API key provided",
        [UIEvent.errorMsg "No Groq API key found. Please set GROQ_API_KEY in .env file."]) := by
    simp [wcInit, pyOr, hnone, h]
  have htrace : mainEvents envKey webcamOk frameOk classifyClicked stopClicked =
      [UIEvent.pageConfig "Waste Classifier" ":recycle:",
       UIEvent.pageTitle "🌍 Real-Time Waste Classification",
       UIEvent.errorMsg "No Groq API key found. Please set GROQ_API_KEY in .env file.",
       UIEvent.stopApp] := by
    simp [mainEvents, hinit]
  refine ⟨by rw [hinit], htrace, ?_⟩
  intro e he
  rw [htrace] at he
  simp only [List.mem_cons, List.not_mem_nil, or_false] at he
  rcases he with rfl | rfl | rfl | rfl <;> simp

theorem missing_api_key_halts_witness :
    pyTruthy (none : Option String) = false ∧
      (wcInit none none).1 = Except.error "No API key provided" ∧
      mainEvents none true true true true =
        [UIEvent.pageConfig "Waste Classifier" ":recycle:",
         UIEvent.pageTitle "🌍 Real-Time Waste Classification",
         UIEvent.errorMsg "No Groq API key found. Please set GROQ_API_KEY in .env file.",
         UIEvent.stopApp] :=
  ⟨rfl, (missing_api_key_halts none rfl true true true true).1,
    (missing_api_key_halts none rfl true true true true).2.1⟩

/-! ## Base64 and encode_image -/

/-- The standard base64 alphabet used by `base64.b64encode`. -/
def b64Alphabet : List Char :=
  "ABCDEFGHIJKLMNOPQRSTUVWXYZabcdefghijklmnopqrstuvwxyz0123456789+/".data

/-- The base64 character of sextet value `n`. -/
def b64Char (n : Nat) : Char := b64Alphabet.getD n 'A'

/-- Position of a character in a list, if present. -/
def indexInChars (c : Char) : List Char → Option Nat
  | [] => none
  | a :: rest => if a = c then some 0 else (indexInChars c rest).map (· + 1)

/-- Sextet value of a base64 character. -/
def b64Val (c : Char) : Option Nat := indexInChars c b64Alphabet

/-- `base64.b64encode` on a byte sequence (bytes as naturals below 256):
big-endian packing of 3 bytes into 4 sextet characters, with `'='` padding
for a 1- or 2-byte tail. -/
def b64encode : List Nat → List Char
  | [] => []
  | [a] => [b64Char (a / 4), b64Char (a % 4 * 16), '=', '=']
  | [a, b] =>
      [b64Char (a / 4), b64Char (a % 4 * 16 + b / 16), b64Char (b % 16 * 4), '=']
  | a :: b :: c :: rest =>
      b64Char (a / 4) :: b64Char (a % 4 * 16 + b / 16) ::
        b64Char (b % 16 * 4 + c / 64) :: b64Char (c % 64) :: b64encode rest

/-- Standard strict base64 decoding, the inverse performed by
`base64.b64decode` on well-formed input: 4 characters at a time, honouring
trailing `'='` padding, `none` on malformed input. -/
def b64decode : List Char → Option (List Nat)
  | [] => some []
  | c1 :: c2 :: c3 :: c4 :: rest =>
      match b64Val c1, b64Val c2 with
      | some v1, some v2 =>
          if c3 = '=' then
            if c4 = '=' && rest.isEmpty then some [v1 * 4 + v2 / 16] else none
          else
            match b64Val c3 with
            | some v3 =>
                if c4 = '=' then
                  if rest.isEmpty then
                    some [v1 * 4 + v2 / 16, v2 % 16 * 16 + v3 / 4]
                  else none
                else
                  match b64Val c4 with
                  | some v4 =>
                      (b64decode rest).map
                        (fun bs => (v1 * 4 + v2 / 16) :: (v2 % 16 * 16 + v3 / 4) ::
                          (v3 % 4 * 64 + v4) :: bs)
                  | none => none
            | none => none
      | _, _ => none
  | _ => none

/-- base64 decoding of a transport string. -/
def b64decodeStr (s : String) : Option (List Nat) := b64decode s.data

/-- `WasteClassifier.encode_image`: JPEG-compress the frame via
`cv2.imencode('.jpg', frame)` — an external codec, abstracted as a function
from frames to the compressed byte buffer — and base64-encode the resulting
bytes into a text string. -/
def encode_image {Frame : Type} (imencode : Frame → List Nat) (frame : Frame) :
    String :=
  ⟨b64encode (imencode frame)⟩

theorem b64Val_b64Char : ∀ n, n < 64 → b64Val (b64Char n) = some n := by decide

theorem b64Char_ne_pad : ∀ n, n < 64 → b64Char n ≠ '=' := by decide

/-- Base64 round trip on byte sequences. -/
theorem b64decode_b64encode :
    ∀ bs : List Nat, (∀ b ∈ bs, b < 256) → b64decode (b64encode bs) = some bs
  | [], _ => rfl
  | [a], h => by
      have ha : a < 256 := h a (by simp)
      have h1 := b64Val_b64Char (a / 4) (by omega)
      have h2 := b64Val_b64Char (a % 4 * 16) (by omega)
      have e1 : a / 4 * 4 + a % 4 * 16 / 16 = a := by omega
      simp [b64encode, b64decode, h1, h2, e1]
      omega
  | [a, b], h => by
      have ha : a < 256 := h a (by simp)
      have hb : b < 256 := h b (by simp)
      have h1 := b64Val_b64Char (a / 4) (by omega)
      have h2 := b64Val_b64Char (a % 4 * 16 + b / 16) (by omega)
      have h3 := b64Val_b64Char (b % 16 * 4) (by omega)
      have hne := b64Char_ne_pad (b % 16 * 4) (by omega)
      have e1 : a / 4 * 4 + (a % 4 * 16 + b / 16) / 16 = a := by omega
      have e2 : (a % 4 * 16 + b / 16) % 16 * 16 + b % 16 * 4 / 4 = b := by omega
      simp [b64encode, b64decode, h1, h2, h3, hne, e1, e2]
      omega
  | a :: b :: c :: rest, h => by
      have ha : a < 256 := h a (by simp)
      have hb : b < 256 := h b (by simp)
      have hc : c < 256 := h c (by simp)
      have ih := b64decode_b64encode rest (fun x hx => h x (by simp [hx]))
      have h1 := b64Val_b64Char (a / 4) (by omega)
      have h2 := b64Val_b64Char (a % 4 * 16 + b / 16) (by omega)
      have h3 := b64Val_b64Char (b % 16 * 4 + c / 64) (by omega)
      have h4 := b64Val_b64Char (c % 64) (by omega)
      have hne3 := b64Char_ne_pad (b % 16 * 4 + c / 64) (by omega)
      have hne4 := b64Char_ne_pad (c % 64) (by omega)
      have e1 : a / 4 * 4 + (a % 4 * 16 + b / 16) / 16 = a := by omega
      have e2 : (a % 4 * 16 + b / 16) % 16 * 16 + (b % 16 * 4 + c / 64) / 4 = b := by
        omega
      have e3 : (b % 16 * 4 + c / 64) % 4 * 64 + c % 64 = c := by omega
      simp [b64encode, b64decode, h1, h2, h3, h4, hne3, hne4, ih, e1, e2, e3]

/-- C9: decoding the text produced by `encode_image` yields bytes identical
to the JPEG-compressed byte buffer produced by the compression step — a
lossless round trip of the compressed representation, not of the original
pixels (the abstract `imencode` codec is lossy). -/
theorem encode_image_roundtrip {Frame : Type} (imencode : Frame → List Nat)
    (frame : Frame) (h : ∀ b ∈ imencode frame, b < 256) :
    b64decodeStr (encode_image imencode frame) = some (imencode frame) :=
  b64decode_b64encode (imencode frame) h

theorem encode_image_roundtrip_witness :
    (∀ b ∈ [0, 255, 16, 7], b < 256) ∧
      b64decodeStr (encode_image (fun _ : Unit => [0, 255, 16, 7]) ()) =
        some [0, 255, 16, 7] :=
  ⟨by decide, encode_image_roundtrip (fun _ : Unit => [0, 255, 16, 7]) () (by decide)⟩

end WC
